import Mathlib

/-!
Shallow embedding of the Telegram chatbot in src/main.py.

The bot keeps three MongoDB collections (users, chat_history, file_metadata),
modelled here as lists of schemaless documents (association lists from field
names to values).  External calls (the Gemini model, the SerpAPI HTTP GET, the
Telegram file download) are modelled as explicit parameters carrying the
outcome of the call, and each handler returns the new database state together
with the list of replies it sends.
-/

namespace Bot

/-- A MongoDB value: the bot stores integers (chat ids), strings, timestamps
(from datetime.now, abstracted as a Nat) and the Python None. -/
inductive BValue where
  | int : Int → BValue
  | str : String → BValue
  | time : Nat → BValue
  | null : BValue
deriving DecidableEq

/-- A schemaless MongoDB document: an ordered list of named fields. -/
abbrev MongoDoc := List (String × BValue)

/-- Look up the value of a field in a document. -/
def lookupField (d : MongoDoc) (k : String) : Option BValue :=
  match d with
  | [] => none
  | (k2, v) :: rest => if k2 = k then some v else lookupField rest k

/-- The Mongo filter used throughout main.py: the document has field
chat_id equal to the given id. -/
def hasChatId (d : MongoDoc) (uid : Int) : Bool :=
  decide (lookupField d "chat_id" = some (BValue.int uid))

/-- The three collections of the telegram_users database
(main.py lines 32-35). -/
structure DB where
  users : List MongoDoc
  chat_history : List MongoDoc
  file_metadata : List MongoDoc
deriving DecidableEq

/-- The database before any interaction. -/
def emptyDB : DB := ⟨[], [], []⟩

/-- collection.find_one on the users collection with filter on chat_id
(main.py line 49). -/
def find_one_user (db : DB) (uid : Int) : Option MongoDoc :=
  db.users.find? (fun d => hasChatId d uid)

/-- The user_data document inserted by register_user (main.py lines 50-55):
phone number is initially None. -/
def userDoc (uid : Int) (first_name username : String) : MongoDoc :=
  [("chat_id", BValue.int uid), ("first_name", BValue.str first_name),
   ("username", BValue.str username), ("phone_number", BValue.null)]

/-- register_user (main.py lines 48-57): insert a fresh user document if and
only if find_one returns nothing. -/
def register_user (db : DB) (uid : Int) (first_name username : String) : DB :=
  match find_one_user db uid with
  | some _ => db
  | none => { db with users := db.users ++ [userDoc uid first_name username] }

/-- A reply sent through update.message.reply_text: its text, and whether a
contact-request keyboard (request_contact button) is attached. -/
structure Reply where
  text : String
  requestsContact : Bool
deriving DecidableEq

/-- The start handler (main.py lines 59-72): register the user, then send the
welcome text with the contact-request keyboard. -/
def start (db : DB) (uid : Int) (first_name username : String) : DB × List Reply :=
  (register_user db uid first_name username,
   [⟨"Welcome to the User Registration Bot! Please share your phone number to continue.",
     true⟩])

/-- Mongo $set on one field: replace the value of the key if present,
append the field otherwise. -/
def setField (d : MongoDoc) (k : String) (v : BValue) : MongoDoc :=
  match d with
  | [] => [(k, v)]
  | (k2, v2) :: rest =>
      if k2 = k then (k, v) :: rest else (k2, v2) :: setField rest k v

/-- collection.update_one with a chat_id filter and a $set on phone_number
(main.py lines 80-83): update the first matching document; if none matches,
the update silently matches zero rows. -/
def update_one_phone : List MongoDoc → Int → String → List MongoDoc
  | [], _, _ => []
  | d :: rest, uid, p =>
      if hasChatId d uid then setField d "phone_number" (BValue.str p) :: rest
      else d :: update_one_phone rest uid p

/-- The handle_contact handler (main.py lines 74-86). -/
def handle_contact (db : DB) (uid : Int) (phone : String) : DB × List Reply :=
  ({ db with users := update_one_phone db.users uid phone },
   [⟨"Thank you for sharing your phone number: " ++ phone ++ ". Registration complete!",
     false⟩])

/-- The chat_history document written by gemini_query (main.py lines 107-112). -/
def geminiDoc (chat_id : Int) (user_input bot_response : String) (now : Nat) : MongoDoc :=
  [("chat_id", BValue.int chat_id), ("user_input", BValue.str user_input),
   ("bot_response", BValue.str bot_response), ("timestamp", BValue.time now)]

/-- The gemini_query handler (main.py lines 94-120).  The outcome of the
chat.send_message call is passed in as an Except value: ok carries the
response text, error a raised exception.  On success the conversation is
stored and the response sent; on failure the fixed apology is sent and
nothing is stored. -/
def gemini_query (aiResult : Except String String) (db : DB) (chat_id : Int)
    (user_input : String) (now : Nat) : DB × List Reply :=
  match aiResult with
  | Except.ok bot_response =>
      ({ db with chat_history :=
           db.chat_history ++ [geminiDoc chat_id user_input bot_response now] },
       [⟨bot_response, false⟩])
  | Except.error _ =>
      (db, [⟨"Sorry, I couldn\x27t process your request right now. Please try again later.",
            false⟩])

/-- One entry of the organic_results array of the SerpAPI JSON: snippet and
link fields, each possibly absent (Python dict.get). -/
structure SearchResult where
  snippet : Option String
  link : Option String
deriving DecidableEq

/-- The SerpAPI HTTP response: status code and the organic_results array
(defaulting to empty when the key is absent). -/
structure HttpResponse where
  status_code : Nat
  organic_results : List SearchResult
deriving DecidableEq

/-- Rendering of top_result.get with no default (main.py line 179): a missing
link is Python None, which an f-string prints as the text None. -/
def pyStrOpt : Option String → String
  | some l => l
  | none => "None"

/-- The summary built from the first organic result (main.py lines 177-179). -/
def formatSummary (r : SearchResult) : String :=
  "Here is a summary for your query:\n\n" ++
  r.snippet.getD "No summary available" ++ "...\n\n" ++
  "For more details, check the full article here: " ++ pyStrOpt r.link

/-- The chat_history document written by web_search (main.py lines 182-187). -/
def websearchDoc (chat_id : Int) (query summary : String) (now : Nat) : MongoDoc :=
  [("chat_id", BValue.int chat_id), ("query", BValue.str query),
   ("summary", BValue.str summary), ("timestamp", BValue.time now)]

/-- web_search (main.py lines 157-192).  The HTTP response is passed in.
Status 200 with no results returns the fixed no-results string; status 200
with results formats the first one, stores it in chat_history and returns it;
any other status returns the fixed error string.  Only the 200-with-results
branch writes to the database. -/
def web_search (resp : HttpResponse) (db : DB) (query : String) (chat_id : Int)
    (now : Nat) : DB × String :=
  if resp.status_code = 200 then
    match resp.organic_results with
    | [] => (db, "Sorry, I couldn\x27t find relevant results for your query.")
    | top :: _ =>
        let summary := formatSummary top
        ({ db with chat_history :=
             db.chat_history ++ [websearchDoc chat_id query summary now] },
         summary)
  else
    (db, "Sorry, I encountered an error while fetching search results.")

/-- The websearch command handler (main.py lines 195-207).  context.args is
the list of words after the command; they are joined with spaces and an empty
result triggers the usage hint.  The returned Nat counts the HTTP GET calls
performed (0 or 1), to express that the relay is not invoked on the
usage-hint branch. -/
def websearch (resp : HttpResponse) (db : DB) (chat_id : Int) (args : List String)
    (now : Nat) : DB × List Reply × Nat :=
  let user_input := String.intercalate " " args
  if user_input = "" then
    (db, [⟨"Please provide a query to search for. Usage: /websearch <your_query>", false⟩], 0)
  else
    let res := web_search resp db user_input chat_id now
    (res.1, [⟨res.2, false⟩], 1)

/-- The file_metadata document written by handle_file (main.py lines 141-146). -/
def fileDoc (file_id file_name description : String) (now : Nat) : MongoDoc :=
  [("file_id", BValue.str file_id), ("file_name", BValue.str file_name),
   ("description", BValue.str description), ("timestamp", BValue.time now)]

/-- The handle_file handler (main.py lines 123-154).  The file download
(get_file plus download_as_bytearray) and the PIL image decoding happen
before the try block: a failure there propagates out of the handler (the
Except.error result) and no reply is sent.  Only the vision-model call and
the subsequent store-and-reply steps sit inside the try, whose except branch
sends the fixed apology.  downloadResult carries the downloaded bytes or a
raised exception; decodeImage is PIL Image.open on those bytes; vision is
the generate_content call on the decoded image. -/
def handle_file (downloadResult : Except String (List Nat))
    (decodeImage : List Nat → Except String (List Nat))
    (vision : List Nat → Except String String)
    (db : DB) (file_id file_name : String) (now : Nat) :
    Except String (DB × List Reply) :=
  match downloadResult with
  | Except.error e => Except.error e
  | Except.ok bytes =>
    match decodeImage bytes with
    | Except.error e => Except.error e
    | Except.ok img =>
      match vision img with
      | Except.ok description =>
          Except.ok
            ({ db with file_metadata :=
                 db.file_metadata ++ [fileDoc file_id file_name description now] },
             [⟨"Here is what I found in the image:\n\n" ++ description, false⟩])
      | Except.error _ =>
          Except.ok
            (db, [⟨"Sorry, I couldn\x27t analyze the file right now. Please try again later.",
                  false⟩])

/-- Number of user documents matching a given chat id. -/
def countChatId (users : List MongoDoc) (uid : Int) : Nat :=
  (users.filter (fun d => hasChatId d uid)).length

/-- The user-store invariant: at most one document per chat id. -/
def atMostOnePerChatId (users : List MongoDoc) : Prop :=
  ∀ uid, countChatId users uid ≤ 1

/-- The shape of a conversation record: exactly four fields whose values are,
in order, a chat identifier, an input text, an output text and a creation
timestamp. -/
def isConversationShape (d : MongoDoc) : Prop :=
  ∃ c i o t, d.map Prod.snd = [BValue.int c, BValue.str i, BValue.str o, BValue.time t]

/-! Helper lemmas. -/

theorem userDoc_hasChatId_self (uid : Int) (fn un : String) :
    hasChatId (userDoc uid fn un) uid = true := by
  simp [hasChatId, userDoc, lookupField]

theorem userDoc_hasChatId_ne (uid u : Int) (fn un : String) (h : uid ≠ u) :
    hasChatId (userDoc uid fn un) u = false := by
  simp [hasChatId, userDoc, lookupField]
  exact fun hc => absurd hc h

theorem countChatId_append (l₁ l₂ : List MongoDoc) (uid : Int) :
    countChatId (l₁ ++ l₂) uid = countChatId l₁ uid + countChatId l₂ uid := by
  simp [countChatId, List.filter_append]

theorem find_one_user_none_count (db : DB) (uid : Int)
    (h : find_one_user db uid = none) : countChatId db.users uid = 0 := by
  have h2 : ∀ d ∈ db.users, ¬ (hasChatId d uid = true) := by
    simpa [find_one_user, List.find?_eq_none] using h
  simp only [countChatId, List.length_eq_zero]
  exact List.filter_eq_nil_iff.mpr h2

theorem register_user_preserves (db : DB) (uid : Int) (fn un : String)
    (h : atMostOnePerChatId db.users) :
    atMostOnePerChatId (register_user db uid fn un).users := by
  unfold register_user
  cases hf : find_one_user db uid with
  | some d => exact h
  | none =>
    intro u
    simp only [countChatId_append]
    by_cases hu : uid = u
    · subst hu
      have h0 := find_one_user_none_count db uid hf
      have h1 : countChatId [userDoc uid fn un] uid = 1 := by
        simp [countChatId, List.filter, userDoc_hasChatId_self]
      omega
    · have hne := userDoc_hasChatId_ne uid u fn un hu
      have : countChatId [userDoc uid fn un] u = 0 := by
        simp [countChatId, hne]
      simp [this]
      exact h u

theorem register_fold_inv (calls : List (Int × String × String)) (db : DB)
    (h : atMostOnePerChatId db.users) :
    atMostOnePerChatId
      ((calls.foldl (fun acc c => register_user acc c.1 c.2.1 c.2.2) db).users) := by
  induction calls generalizing db with
  | nil => exact h
  | cons c rest ih =>
    exact ih (register_user db c.1 c.2.1 c.2.2)
      (register_user_preserves db c.1 c.2.1 c.2.2 h)

/-! Claim theorems. -/

/-- Claim C1: register is idempotent.  A second (or any later) call of
register_user with the same chat id leaves the database exactly as the first
call left it, whatever names the later call carries; and after any sequence
of register_user calls starting from the empty database, the users collection
holds at most one document per chat id. -/
theorem register_user_idempotent :
    (∀ (db : DB) (uid : Int) (fn un fn2 un2 : String),
        register_user (register_user db uid fn un) uid fn2 un2
          = register_user db uid fn un) ∧
    (∀ calls : List (Int × String × String),
        atMostOnePerChatId
          ((calls.foldl (fun acc c => register_user acc c.1 c.2.1 c.2.2) emptyDB).users)) := by
  constructor
  · intro db uid fn un fn2 un2
    unfold register_user
    cases hf : find_one_user db uid with
    | some d => simp [hf]
    | none =>
      have hfind :
          find_one_user { db with users := db.users ++ [userDoc uid fn un] } uid
            = some (userDoc uid fn un) := by
        have hnone : db.users.find? (fun d => hasChatId d uid) = none := hf
        simp [find_one_user, List.find?_append, hnone, userDoc_hasChatId_self]
      simp [hfind]
  · intro calls
    refine register_fold_inv calls emptyDB ?_
    intro u
    simp [emptyDB, countChatId]

/-- Claim C2: when the Gemini call raises a failure, the text handler sends
exactly the fixed apology string and persists nothing: the database is
returned unchanged. -/
theorem gemini_query_failure_apology :
    ∀ (e : String) (db : DB) (chat_id : Int) (user_input : String) (now : Nat),
      gemini_query (Except.error e) db chat_id user_input now
        = (db, [⟨"Sorry, I couldn\x27t process your request right now. Please try again later.",
                false⟩]) := by
  intro e db chat_id user_input now
  rfl

/-- Claim C3: on HTTP 200 with a first organic result carrying snippet S and
link L, web_search returns the formatted summary, which contains S followed
by the fixed more-details phrase and L, and appends exactly one conversation
record under the calling chat id whose summary field is that text. -/
theorem web_search_top_result_format :
    ∀ (S L : String) (rest : List SearchResult) (db : DB) (q : String)
      (cid : Int) (now : Nat),
      web_search ⟨200, ⟨some S, some L⟩ :: rest⟩ db q cid now
        = ({ db with chat_history := db.chat_history
               ++ [websearchDoc cid q (formatSummary ⟨some S, some L⟩) now] },
           formatSummary ⟨some S, some L⟩) ∧
      (∃ p m, formatSummary ⟨some S, some L⟩
          = p ++ S ++ m ++ "For more details, check the full article here: " ++ L) ∧
      lookupField (websearchDoc cid q (formatSummary ⟨some S, some L⟩) now) "summary"
        = some (BValue.str (formatSummary ⟨some S, some L⟩)) ∧
      lookupField (websearchDoc cid q (formatSummary ⟨some S, some L⟩) now) "chat_id"
        = some (BValue.int cid) := by
  intro S L rest db q cid now
  refine ⟨rfl, ⟨"Here is a summary for your query:\n\n", "...\n\n", rfl⟩, ?_, ?_⟩
  · simp [lookupField, websearchDoc]
  · simp [lookupField, websearchDoc]

/-- Claim C4: on HTTP 200 with an empty organic_results list, web_search
returns exactly the fixed no-results string and leaves the database
unchanged. -/
theorem web_search_empty_results :
    ∀ (db : DB) (q : String) (cid : Int) (now : Nat),
      web_search ⟨200, []⟩ db q cid now
        = (db, "Sorry, I couldn\x27t find relevant results for your query.") := by
  intro db q cid now
  rfl

/-- Claim C5: on any HTTP status other than 200, web_search returns the fixed
generic error message and leaves the database unchanged. -/
theorem web_search_non200 :
    ∀ (resp : HttpResponse) (db : DB) (q : String) (cid : Int) (now : Nat),
      resp.status_code ≠ 200 →
      web_search resp db q cid now
        = (db, "Sorry, I encountered an error while fetching search results.") := by
  intro resp db q cid now h
  simp [web_search, h]

/-- Witness for claim C5 at status 500. -/
theorem web_search_non200_witness :
    (HttpResponse.mk 500 []).status_code ≠ 200 ∧
    web_search ⟨500, []⟩ emptyDB "q" 1 0
      = (emptyDB, "Sorry, I encountered an error while fetching search results.") :=
  ⟨by decide, web_search_non200 ⟨500, []⟩ emptyDB "q" 1 0 (by decide)⟩

/-- Claim C6: the websearch command with no trailing arguments replies with
the usage-hint message, performs no HTTP call (the call counter is 0), and
leaves the database unchanged. -/
theorem websearch_no_args :
    ∀ (resp : HttpResponse) (db : DB) (cid : Int) (now : Nat),
      websearch resp db cid [] now
        = (db, [⟨"Please provide a query to search for. Usage: /websearch <your_query>",
                false⟩], 0) := by
  intro resp db cid now
  rfl

theorem update_one_phone_no_match (l : List MongoDoc) (uid : Int) (p : String)
    (h : ∀ d ∈ l, hasChatId d uid = false) : update_one_phone l uid p = l := by
  induction l with
  | nil => rfl
  | cons d rest ih =>
    have hd : hasChatId d uid = false := h d (List.mem_cons_self d rest)
    have hrest : ∀ d2 ∈ rest, hasChatId d2 uid = false :=
      fun d2 hm => h d2 (List.mem_cons_of_mem d hm)
    simp [update_one_phone, hd, ih hrest]

/-- Claim C7: a contact share from a chat id with no user document in the
store performs zero updates: the database is returned unchanged.  The
handler is a total function, so no error is raised. -/
theorem handle_contact_missing_user :
    ∀ (db : DB) (uid : Int) (phone : String),
      (∀ d ∈ db.users, hasChatId d uid = false) →
      (handle_contact db uid phone).1 = db := by
  intro db uid phone h
  simp [handle_contact, update_one_phone_no_match db.users uid phone h]

/-- Witness for claim C7: a store holding only chat id 2, contacted by
chat id 5. -/
theorem handle_contact_missing_user_witness :
    (∀ d ∈ (DB.mk [userDoc 2 "a" "b"] [] []).users, hasChatId d 5 = false) ∧
    (handle_contact ⟨[userDoc 2 "a" "b"], [], []⟩ 5 "777").1
      = ⟨[userDoc 2 "a" "b"], [], []⟩ :=
  ⟨by decide, handle_contact_missing_user ⟨[userDoc 2 "a" "b"], [], []⟩ 5 "777" (by decide)⟩

/-- Claim C8: a start command from a brand-new chat id inserts exactly one
user document, with phone_number set to None, and sends the contact-request
keyboard prompt. -/
theorem start_new_user :
    ∀ (db : DB) (uid : Int) (fn un : String),
      find_one_user db uid = none →
      (start db uid fn un).1.users = db.users ++ [userDoc uid fn un] ∧
      countChatId (start db uid fn un).1.users uid = 1 ∧
      lookupField (userDoc uid fn un) "phone_number" = some BValue.null ∧
      (start db uid fn un).2
        = [⟨"Welcome to the User Registration Bot! Please share your phone number to continue.",
            true⟩] := by
  intro db uid fn un h
  have husers : (start db uid fn un).1.users = db.users ++ [userDoc uid fn un] := by
    simp [start, register_user, h]
  refine ⟨husers, ?_, by simp [lookupField, userDoc], rfl⟩
  rw [husers, countChatId_append, find_one_user_none_count db uid h]
  simp [countChatId, List.filter, userDoc_hasChatId_self]

/-- Witness for claim C8: a start command from chat id 1 on the empty
database. -/
theorem start_new_user_witness :
    find_one_user emptyDB 1 = none ∧
    ((start emptyDB 1 "A" "B").1.users = emptyDB.users ++ [userDoc 1 "A" "B"] ∧
     countChatId (start emptyDB 1 "A" "B").1.users 1 = 1 ∧
     lookupField (userDoc 1 "A" "B") "phone_number" = some BValue.null ∧
     (start emptyDB 1 "A" "B").2
       = [⟨"Welcome to the User Registration Bot! Please share your phone number to continue.",
           true⟩]) :=
  ⟨rfl, start_new_user emptyDB 1 "A" "B" rfl⟩

/-- Claim C9: every document either flow appends to the chat_history
collection has the conversation-record shape: a chat identifier, an input
text, an output text and a creation timestamp, and nothing else.  Each call
leaves chat_history unchanged or appends exactly one document of that
shape. -/
theorem conversation_log_shape :
    (∀ (r : Except String String) (db : DB) (cid : Int) (ui : String) (now : Nat),
        (gemini_query r db cid ui now).1.chat_history = db.chat_history
        ∨ ∃ d, (gemini_query r db cid ui now).1.chat_history = db.chat_history ++ [d]
             ∧ isConversationShape d) ∧
    (∀ (resp : HttpResponse) (db : DB) (q : String) (cid : Int) (now : Nat),
        (web_search resp db q cid now).1.chat_history = db.chat_history
        ∨ ∃ d, (web_search resp db q cid now).1.chat_history = db.chat_history ++ [d]
             ∧ isConversationShape d) := by
  constructor
  · intro r db cid ui now
    cases r with
    | ok br => exact Or.inr ⟨geminiDoc cid ui br now, rfl, cid, ui, br, now, rfl⟩
    | error e => exact Or.inl rfl
  · intro resp db q cid now
    by_cases h : resp.status_code = 200
    · cases hres : resp.organic_results with
      | nil => exact Or.inl (by simp [web_search, h, hres])
      | cons top rest =>
        exact Or.inr ⟨websearchDoc cid q (formatSummary top) now,
          by simp [web_search, h, hres], cid, q, formatSummary top, now, rfl⟩
    · exact Or.inl (by simp [web_search, h])

/-- Claim C10: in handle_file the download and the image decoding happen
before the try block, so a failure in either propagates out of the handler
(the Except.error result) and no apology is sent; the failure-to-apology
substitution fires only for the vision-model call and the steps after it. -/
theorem handle_file_pre_try_failures :
    ∀ (e : String) (b : List Nat)
      (dec : List Nat → Except String (List Nat))
      (vis : List Nat → Except String String)
      (db : DB) (fid fn : String) (now : Nat),
      handle_file (Except.error e) dec vis db fid fn now = Except.error e ∧
      handle_file (Except.ok b) (fun _ => Except.error e) vis db fid fn now
        = Except.error e ∧
      handle_file (Except.ok b) (fun x => Except.ok x) (fun _ => Except.error e)
          db fid fn now
        = Except.ok (db,
            [⟨"Sorry, I couldn\x27t analyze the file right now. Please try again later.",
              false⟩]) := by
  intro e b dec vis db fid fn now
  exact ⟨rfl, rfl, rfl⟩

end Bot
